import Mathlib

/-!
Shallow embedding of the openlibx402 protocol engine (Rust) and proofs about it.

Sources embedded:
- `packages/rust/openlibx402-core/src/errors.rs` (`X402Error`)
- `packages/rust/openlibx402-core/src/models.rs` (`PaymentRequest`, `PaymentAuthorization`,
  JSON and base64 codecs)
- `packages/rust/openlibx402-core/src/payment_processor.rs` (`SolanaPaymentProcessor`:
  `parse_amount`, `create_payment`, `verify_payment`)
- `packages/rust/openlibx402-client/src/client.rs` / `auto_client.rs`
  (`X402Client::parse_payment_request`, `X402AutoClient::request`, `check_payment_amount`)

Modelling conventions:
- Rust parses decimal amount strings with `str::parse::<f64>` and then scales,
  compares or casts the result.  The model keeps the exact value of the decimal
  literal (as a mantissa/power-of-ten pair `Dec`, with `ℚ` used to state its value
  in theorems): binary64 rounding is abstracted away.  On every concrete amount
  appearing in the claims the rounded and the exact computation agree.  The Rust
  `as u64` cast truncates toward zero saturating at `0` and `2^64 - 1`, exactly as
  modelled in `decAsU64`.
- `chrono::DateTime<Utc>` is modelled as an integer instant (`Int`); its RFC 3339
  serialized text is abstracted to the injective decimal rendering of that integer.
  "now" is an explicit parameter wherever the source reads the wall clock.
- The ledger / RPC endpoint (`RpcClient`) and the HTTP transport are modelled as
  explicit oracle records (`RpcWorld`, `ClientWorld`); each oracle returns the same
  data the corresponding Rust call site consumes.
- `serde_json` serialization of the two (all-string-field) structs is modelled by a
  faithful JSON object printer/parser over `List Char`, including string escaping;
  base64 (`general_purpose::STANDARD`) and UTF-8 are modelled in full on byte lists.
-/

/-- `X402Error` from `errors.rs`: one constructor per variant, each carrying its
detail string. -/
inductive X402Error where
  | PaymentRequired (msg : String)
  | PaymentExpired (msg : String)
  | InsufficientFunds (msg : String)
  | PaymentVerification (msg : String)
  | TransactionBroadcast (msg : String)
  | InvalidPaymentRequest (msg : String)
  | InvalidPaymentAuthorization (msg : String)
  | Configuration (msg : String)
  | Network (msg : String)
  | Blockchain (msg : String)
  | Serialization (msg : String)
  deriving DecidableEq, Repr

/-- `X402Error::code` from `errors.rs`. -/
def X402Error.code : X402Error → String
  | .PaymentRequired _ => "PAYMENT_REQUIRED"
  | .PaymentExpired _ => "PAYMENT_EXPIRED"
  | .InsufficientFunds _ => "INSUFFICIENT_FUNDS"
  | .PaymentVerification _ => "PAYMENT_VERIFICATION_FAILED"
  | .TransactionBroadcast _ => "TRANSACTION_BROADCAST_FAILED"
  | .InvalidPaymentRequest _ => "INVALID_PAYMENT_REQUEST"
  | .InvalidPaymentAuthorization _ => "INVALID_PAYMENT_AUTHORIZATION"
  | .Configuration _ => "CONFIGURATION_ERROR"
  | .Network _ => "NETWORK_ERROR"
  | .Blockchain _ => "BLOCKCHAIN_ERROR"
  | .Serialization _ => "SERIALIZATION_ERROR"

/-- `X402Result<T>` alias from `errors.rs`. -/
abbrev X402Result (α : Type) := Except X402Error α

deriving instance DecidableEq for Except

/-- Exact value of a parsed decimal literal: `(-1)^neg * mant * 10^exp`. -/
structure Dec where
  neg : Bool
  mant : Nat
  exp : Int
  deriving DecidableEq, Repr

/-- The rational value a `Dec` denotes (used in theorem statements only). -/
def Dec.toRat (d : Dec) : ℚ :=
  (if d.neg then -1 else 1) * (d.mant : ℚ) * (10 : ℚ) ^ d.exp

/-- The signed integer value of a `Dec` rescaled to the power `m ≤ exp`
(computable: only `Nat` arithmetic inside). -/
def Dec.scaled (d : Dec) (m : Int) : Int :=
  (if d.neg then -1 else 1) * ((d.mant * 10 ^ (d.exp - m).toNat : Nat) : Int)

/-- Strict comparison of two parsed decimals, as the `f64` comparison
`required_amount > max_amount` in `auto_client.rs` observes it. -/
def Dec.gtB (a b : Dec) : Bool :=
  let m := min a.exp b.exp
  b.scaled m < a.scaled m

/-- Numeric value of an ASCII decimal digit. -/
def digitVal? (c : Char) : Option Nat :=
  if 48 ≤ c.toNat ∧ c.toNat ≤ 57 then some (c.toNat - 48) else none

/-- Split a leading run of decimal digits off a character list. -/
def takeDigits : List Char → List Nat × List Char
  | [] => ([], [])
  | c :: cs =>
    match digitVal? c with
    | some d =>
      let p := takeDigits cs
      (d :: p.1, p.2)
    | none => ([], c :: cs)

/-- Value of a most-significant-first digit list. -/
def digitsToNat (ds : List Nat) : Nat :=
  ds.foldl (fun a d => a * 10 + d) 0

/-- Optional sign character, as in Rust's float grammar. -/
def parseSign : List Char → Bool × List Char
  | '-' :: cs => (true, cs)
  | '+' :: cs => (false, cs)
  | cs => (false, cs)

/-- Exponent part of a decimal literal (`e`/`E` already consumed): sign and a
nonempty digit run, consuming the whole remaining input. -/
def parseExponent (cs : List Char) : Option Int :=
  let sp := parseSign cs
  let dp := takeDigits sp.2
  if dp.1 = [] ∨ dp.2 ≠ [] then none
  else some ((if sp.1 then -1 else 1) * (digitsToNat dp.1 : Int))

/-- Decimal-literal parser modelling Rust's `str::parse::<f64>` grammar
(`[+-]? (digits [. digits?] | . digits) ([eE] [+-]? digits)?`), except that the
result is the exact value of the literal rather than a binary64 rounding, and the
non-finite spellings (`inf`, `NaN`, ...) are not modelled. -/
def parseDecimal (s : String) : Option Dec :=
  let sp := parseSign s.data
  let ip := takeDigits sp.2
  let fp : List Nat × List Char :=
    match ip.2 with
    | '.' :: cs => takeDigits cs
    | _ => ([], ip.2)
  if ip.1 = [] ∧ fp.1 = [] then none
  else
    let mant := digitsToNat (ip.1 ++ fp.1)
    let frac : Int := fp.1.length
    match fp.2 with
    | [] => some ⟨sp.1, mant, -frac⟩
    | 'e' :: cs => (parseExponent cs).map (fun e => ⟨sp.1, mant, e - frac⟩)
    | 'E' :: cs => (parseExponent cs).map (fun e => ⟨sp.1, mant, e - frac⟩)
    | _ => none

/-- Rust's `as u64` cast applied to a (model) decimal value: truncate toward zero,
saturating at `0` below and `2^64 - 1` above. -/
def decAsU64 (d : Dec) : Nat :=
  if d.neg ∧ d.mant ≠ 0 then 0
  else
    min (if 0 ≤ d.exp then d.mant * 10 ^ d.exp.toNat else d.mant / 10 ^ (-d.exp).toNat)
      (2 ^ 64 - 1)

/-- `SolanaPaymentProcessor::parse_amount` from `payment_processor.rs`: parse the
decimal display string, scale by `10^6` (6-decimal USDC; exact model of
`amount * 1_000_000.0`), cast to `u64`; a string that does not parse is an
`InvalidPaymentRequest` error. -/
def SolanaPaymentProcessor.parse_amount (amount_str : String) : X402Result Nat :=
  match parseDecimal amount_str with
  | none =>
    .error (.InvalidPaymentRequest ("Invalid amount format: " ++ amount_str))
  | some amount => .ok (decAsU64 ⟨amount.neg, amount.mant, amount.exp + 6⟩)


/-- ASCII character of a decimal digit. -/
def digitChar (d : Nat) : Char := Char.ofNat (48 + d)

/-- Most-significant-first decimal rendering of a natural number. -/
def renderNat (n : Nat) : List Char :=
  if n = 0 then ['0'] else ((Nat.digits 10 n).map digitChar).reverse

/-- Digit-run parser accumulating most-significant-first. -/
def parseDigitsAux (acc : Nat) : List Char → Option Nat
  | [] => some acc
  | c :: cs =>
    match digitVal? c with
    | some d => parseDigitsAux (acc * 10 + d) cs
    | none => none

/-- Parse a nonempty all-digit character list as a natural number. -/
def parseNat? (cs : List Char) : Option Nat :=
  if cs = [] then none else parseDigitsAux 0 cs

/-- Decimal rendering of an instant (model of the RFC 3339 text chrono emits:
injective, parsed back by `parseTime?`). -/
def renderTime (t : Int) : List Char :=
  if t < 0 then '-' :: renderNat (-t).toNat else renderNat t.toNat

/-- Inverse of `renderTime` (model of chrono's timestamp parsing). -/
def parseTime? (cs : List Char) : Option Int :=
  if cs.head? = some '-' then (parseNat? cs.tail).map (fun (n : Nat) => -(n : Int))
  else (parseNat? cs).map (fun (n : Nat) => (n : Int))

/-- Lower-case hexadecimal digit, as `serde_json` emits in `\u00XX` escapes. -/
def hexDigitChar (n : Nat) : Char :=
  if n < 10 then Char.ofNat (48 + n) else Char.ofNat (87 + n)

/-- Value of a hexadecimal digit character. -/
def hexVal? (c : Char) : Option Nat :=
  if 48 ≤ c.toNat ∧ c.toNat ≤ 57 then some (c.toNat - 48)
  else if 97 ≤ c.toNat ∧ c.toNat ≤ 102 then some (c.toNat - 87)
  else if 65 ≤ c.toNat ∧ c.toNat ≤ 70 then some (c.toNat - 55)
  else none

/-- JSON escaping of one character, following `serde_json`'s writer: `"` and `\`
are backslash-escaped, the five short control escapes are used where they exist,
any other control character becomes `\u00XX`, everything else is copied. -/
def escapeChar (c : Char) : List Char :=
  if c = '"' then ['\\', '"']
  else if c = '\\' then ['\\', '\\']
  else if c = Char.ofNat 8 then ['\\', 'b']
  else if c = Char.ofNat 12 then ['\\', 'f']
  else if c = '\n' then ['\\', 'n']
  else if c = '\r' then ['\\', 'r']
  else if c = '\t' then ['\\', 't']
  else if c.toNat < 32 then
    ['\\', 'u', '0', '0', hexDigitChar (c.toNat / 16), hexDigitChar (c.toNat % 16)]
  else [c]

/-- JSON escaping of a character list. -/
def escapeStr : List Char → List Char
  | [] => []
  | c :: cs => escapeChar c ++ escapeStr cs

/-- Character denoted by a single-character JSON escape code. -/
def escapeCode? (e : Char) : Option Char :=
  if e = '"' then some '"'
  else if e = '\\' then some '\\'
  else if e = '/' then some '/'
  else if e = 'b' then some (Char.ofNat 8)
  else if e = 'f' then some (Char.ofNat 12)
  else if e = 'n' then some '\n'
  else if e = 'r' then some '\r'
  else if e = 't' then some '\t'
  else none

/-- One hexadecimal quadruple, for `\u` escapes. -/
def parseHex4 : List Char → Option (Nat × List Char)
  | h1 :: h2 :: h3 :: h4 :: cs =>
    match hexVal? h1, hexVal? h2, hexVal? h3, hexVal? h4 with
    | some v1, some v2, some v3, some v4 =>
      some (((v1 * 16 + v2) * 16 + v3) * 16 + v4, cs)
    | _, _, _, _ => none
  | _ => none

/-- One step of the JSON string-body parser: handles one input character (or one
escape sequence) and defers to `rec` for the remainder. -/
def parseJStringStep (rec : List Char → Option (List Char × List Char)) :
    List Char → Option (List Char × List Char)
  | [] => none
  | c :: cs =>
    if c = '"' then some ([], cs)
    else if c = '\\' then
      match cs with
      | [] => none
      | e :: cs2 =>
        if e = 'u' then
          match parseHex4 cs2 with
          | some nr =>
            if Nat.isValidChar nr.1 then
              (rec nr.2).map (fun p => (Char.ofNat nr.1 :: p.1, p.2))
            else none
          | none => none
        else
          match escapeCode? e with
          | some c2 => (rec cs2).map (fun p => (c2 :: p.1, p.2))
          | none => none
    else if c.toNat < 32 then none
    else (rec cs).map (fun p => (c :: p.1, p.2))

/-- Fueled JSON string-body parser. -/
def parseJStringF : Nat → List Char → Option (List Char × List Char)
  | 0, _ => none
  | fuel + 1, cs => parseJStringStep (parseJStringF fuel) cs

/-- JSON string-body parser: consumes up to and including the closing quote,
returning the unescaped content and the rest of the input.  (Surrogate-pair
`\uXXXX` escapes are not modelled; the printer never emits them.)  Every step
consumes at least one character, so the input length is sufficient fuel. -/
def parseJString (cs : List Char) : Option (List Char × List Char) :=
  parseJStringF cs.length cs

/-- Rendering of one JSON string literal. -/
def renderJString (s : List Char) : List Char := '"' :: (escapeStr s ++ ['"'])

/-- Rendering of one `"key":"value"` member. -/
def renderKV (k v : List Char) : List Char := renderJString k ++ ':' :: renderJString v

/-- Rendering of a nonempty member list followed by the closing brace
(`[]` gives just the brace). -/
def renderMembers : List (List Char × List Char) → List Char
  | [] => ['}']
  | [kv] => renderKV kv.1 kv.2 ++ ['}']
  | kv :: rest => renderKV kv.1 kv.2 ++ ',' :: renderMembers rest

/-- Rendering of a JSON object all of whose values are strings, in `serde_json`
compact style (no whitespace, fields in declaration order). -/
def renderObj (l : List (List Char × List Char)) : List Char := '{' :: renderMembers l

/-- Fueled parser for a nonempty member sequence ending at the closing brace. -/
def parseMembers : Nat → List Char → Option (List (List Char × List Char) × List Char)
  | 0, _ => none
  | fuel + 1, cs =>
    match cs with
    | '"' :: cs1 =>
      (parseJString cs1).bind fun kp =>
        match kp.2 with
        | ':' :: '"' :: cs3 =>
          (parseJString cs3).bind fun vp =>
            match vp.2 with
            | ',' :: cs5 =>
              (parseMembers fuel cs5).map (fun p => ((kp.1, vp.1) :: p.1, p.2))
            | '}' :: cs5 => some ([(kp.1, vp.1)], cs5)
            | _ => none
        | _ => none
    | _ => none

/-- Parser for a whole JSON object of string values (model of `serde_json`
deserialization at the syntax level, restricted to the string-valued-object
grammar the two protocol structs live in; interstitial whitespace is not
modelled — the printer emits none). -/
def parseObj (cs : List Char) : Option (List (List Char × List Char)) :=
  match cs with
  | '{' :: cs1 =>
    if cs1 = ['}'] then some []
    else (parseMembers cs.length cs1).bind fun p => if p.2 = [] then some p.1 else none
  | _ => none

/-- `PaymentRequest` from `models.rs`; `expires_at` (a `chrono` instant) is the
model integer instant. -/
structure PaymentRequest where
  max_amount_required : String
  asset_type : String
  asset_address : String
  payment_address : String
  network : String
  expires_at : Int
  nonce : String
  payment_id : String
  resource : String
  description : Option String
  deriving DecidableEq, Repr

/-- `PaymentRequest::new` from `models.rs`: fixes `asset_type` to `"SPL"` and
leaves `description` empty. -/
def PaymentRequest.new (max_amount_required asset_address payment_address network : String)
    (expires_at : Int) (nonce payment_id resource : String) : PaymentRequest :=
  ⟨max_amount_required, "SPL", asset_address, payment_address, network, expires_at,
    nonce, payment_id, resource, none⟩

/-- `PaymentRequest::with_description` from `models.rs`. -/
def PaymentRequest.with_description (r : PaymentRequest) (d : String) : PaymentRequest :=
  { r with description := some d }

/-- `PaymentRequest::is_expired` from `models.rs`: `Utc::now() > self.expires_at`,
with "now" an explicit parameter. -/
def PaymentRequest.is_expired (r : PaymentRequest) (now : Int) : Bool :=
  r.expires_at < now

/-- The serialized field list of a demand, in struct declaration order;
`description` is skipped when `None` (`skip_serializing_if = "Option::is_none"`). -/
def PaymentRequest.jsonFields (r : PaymentRequest) : List (List Char × List Char) :=
  [("max_amount_required".data, r.max_amount_required.data),
   ("asset_type".data, r.asset_type.data),
   ("asset_address".data, r.asset_address.data),
   ("payment_address".data, r.payment_address.data),
   ("network".data, r.network.data),
   ("expires_at".data, renderTime r.expires_at),
   ("nonce".data, r.nonce.data),
   ("payment_id".data, r.payment_id.data),
   ("resource".data, r.resource.data)] ++
  (match r.description with
   | none => []
   | some d => [("description".data, d.data)])

/-- `PaymentRequest::to_json` from `models.rs` (`serde_json::to_string`; the
error branch maps to `Serialization` but string serialization cannot fail). -/
def PaymentRequest.to_json (r : PaymentRequest) : X402Result String :=
  .ok (String.mk (renderObj r.jsonFields))

/-- Field extraction of `serde` deserialization for `PaymentRequest`: every
declared field is looked up by name (order-insensitive, unknown keys ignored),
all are required except `description`. -/
def PaymentRequest.ofFields (kvs : List (List Char × List Char)) : Option PaymentRequest := do
  let a ← kvs.lookup "max_amount_required".data
  let ty ← kvs.lookup "asset_type".data
  let aa ← kvs.lookup "asset_address".data
  let pa ← kvs.lookup "payment_address".data
  let nw ← kvs.lookup "network".data
  let ex ← kvs.lookup "expires_at".data
  let t ← parseTime? ex
  let no ← kvs.lookup "nonce".data
  let pid ← kvs.lookup "payment_id".data
  let rs ← kvs.lookup "resource".data
  let de := (kvs.lookup "description".data).map String.mk
  pure ⟨String.mk a, String.mk ty, String.mk aa, String.mk pa, String.mk nw, t,
    String.mk no, String.mk pid, String.mk rs, de⟩

/-- `PaymentRequest::from_json` from `models.rs`: any `serde_json` failure maps to
`InvalidPaymentRequest` (the serde detail text is abstracted to a fixed message). -/
def PaymentRequest.from_json (json : String) : X402Result PaymentRequest :=
  match (parseObj json.data).bind PaymentRequest.ofFields with
  | none => .error (.InvalidPaymentRequest "Failed to parse payment request")
  | some r => .ok r

/-- `PaymentAuthorization` from `models.rs`; `timestamp` is the model instant. -/
structure PaymentAuthorization where
  payment_id : String
  actual_amount : String
  payment_address : String
  asset_address : String
  network : String
  timestamp : Int
  signature : String
  public_key : String
  transaction_hash : Option String
  deriving DecidableEq, Repr

/-- `PaymentAuthorization::new` from `models.rs`: stamps `timestamp` with "now"
(explicit parameter) and defaults `transaction_hash` to the signature. -/
def PaymentAuthorization.new (now : Int)
    (payment_id actual_amount payment_address asset_address network signature
      public_key : String) : PaymentAuthorization :=
  ⟨payment_id, actual_amount, payment_address, asset_address, network, now,
    signature, public_key, some signature⟩

/-- The serialized field list of a proof, in struct declaration order;
`transaction_hash` is skipped when `None`. -/
def PaymentAuthorization.jsonFields (p : PaymentAuthorization) :
    List (List Char × List Char) :=
  [("payment_id".data, p.payment_id.data),
   ("actual_amount".data, p.actual_amount.data),
   ("payment_address".data, p.payment_address.data),
   ("asset_address".data, p.asset_address.data),
   ("network".data, p.network.data),
   ("timestamp".data, renderTime p.timestamp),
   ("signature".data, p.signature.data),
   ("public_key".data, p.public_key.data)] ++
  (match p.transaction_hash with
   | none => []
   | some h => [("transaction_hash".data, h.data)])

/-- `PaymentAuthorization::to_json` from `models.rs`. -/
def PaymentAuthorization.to_json (p : PaymentAuthorization) : X402Result String :=
  .ok (String.mk (renderObj p.jsonFields))

/-- Field extraction of `serde` deserialization for `PaymentAuthorization`. -/
def PaymentAuthorization.ofFields (kvs : List (List Char × List Char)) :
    Option PaymentAuthorization := do
  let pid ← kvs.lookup "payment_id".data
  let am ← kvs.lookup "actual_amount".data
  let pa ← kvs.lookup "payment_address".data
  let aa ← kvs.lookup "asset_address".data
  let nw ← kvs.lookup "network".data
  let ts ← kvs.lookup "timestamp".data
  let t ← parseTime? ts
  let sg ← kvs.lookup "signature".data
  let pk ← kvs.lookup "public_key".data
  let th := (kvs.lookup "transaction_hash".data).map String.mk
  pure ⟨String.mk pid, String.mk am, String.mk pa, String.mk aa, String.mk nw, t,
    String.mk sg, String.mk pk, th⟩

/-- `PaymentAuthorization::from_json` from `models.rs`: failure maps to
`InvalidPaymentAuthorization`. -/
def PaymentAuthorization.from_json (json : String) : X402Result PaymentAuthorization :=
  match (parseObj json.data).bind PaymentAuthorization.ofFields with
  | none => .error (.InvalidPaymentAuthorization "Failed to parse payment authorization")
  | some p => .ok p

/-- UTF-8 encoding of one scalar value (as `String::as_bytes` produces). -/
def utf8EncodeChar (c : Char) : List Nat :=
  let n := c.toNat
  if n < 128 then [n]
  else if n < 2048 then [192 + n / 64, 128 + n % 64]
  else if n < 65536 then [224 + n / 4096, 128 + n / 64 % 64, 128 + n % 64]
  else [240 + n / 262144, 128 + n / 4096 % 64, 128 + n / 64 % 64, 128 + n % 64]

/-- UTF-8 encoding of a character list to bytes. -/
def utf8Encode : List Char → List Nat
  | [] => []
  | c :: cs => utf8EncodeChar c ++ utf8Encode cs

/-- One step of strict UTF-8 decoding: consume the bytes of one scalar value
(rejecting stray or missing continuation bytes, overlong forms, surrogates and
out-of-range values, as `String::from_utf8` does) and defer to `rec`. -/
def utf8DecodeStep (rec : List Nat → Option (List Char)) : List Nat → Option (List Char)
  | [] => some []
  | b :: bs =>
    if b < 128 then (rec bs).map (fun cs => Char.ofNat b :: cs)
    else if b < 192 then none
    else if b < 224 then
      match bs with
      | b2 :: bs2 =>
        if 128 ≤ b2 ∧ b2 < 192 then
          let n := (b - 192) * 64 + (b2 - 128)
          if n < 128 then none
          else (rec bs2).map (fun cs => Char.ofNat n :: cs)
        else none
      | _ => none
    else if b < 240 then
      match bs with
      | b2 :: b3 :: bs2 =>
        if (128 ≤ b2 ∧ b2 < 192) ∧ (128 ≤ b3 ∧ b3 < 192) then
          let n := (b - 224) * 4096 + (b2 - 128) * 64 + (b3 - 128)
          if n < 2048 ∨ (55296 ≤ n ∧ n < 57344) then none
          else (rec bs2).map (fun cs => Char.ofNat n :: cs)
        else none
      | _ => none
    else if b < 248 then
      match bs with
      | b2 :: b3 :: b4 :: bs2 =>
        if (128 ≤ b2 ∧ b2 < 192) ∧ (128 ≤ b3 ∧ b3 < 192) ∧ (128 ≤ b4 ∧ b4 < 192) then
          let n := (b - 240) * 262144 + (b2 - 128) * 4096 + (b3 - 128) * 64 + (b4 - 128)
          if n < 65536 ∨ 1114112 ≤ n then none
          else (rec bs2).map (fun cs => Char.ofNat n :: cs)
        else none
      | _ => none
    else none

/-- Fueled strict UTF-8 decoder. -/
def utf8DecodeF : Nat → List Nat → Option (List Char)
  | 0, [] => some []
  | 0, _ :: _ => none
  | fuel + 1, bs => utf8DecodeStep (utf8DecodeF fuel) bs

/-- Strict UTF-8 decoding of a byte list (as `String::from_utf8`).  Every step
consumes at least one byte, so the input length is sufficient fuel. -/
def utf8Decode (bs : List Nat) : Option (List Char) :=
  utf8DecodeF bs.length bs

/-- Character of one sextet in the standard base64 alphabet. -/
def b64Char (s : Nat) : Char :=
  if s < 26 then Char.ofNat (65 + s)
  else if s < 52 then Char.ofNat (97 + (s - 26))
  else if s < 62 then Char.ofNat (48 + (s - 52))
  else if s = 62 then '+'
  else '/'

/-- Sextet of a standard-alphabet base64 character. -/
def b64Val? (c : Char) : Option Nat :=
  if 65 ≤ c.toNat ∧ c.toNat ≤ 90 then some (c.toNat - 65)
  else if 97 ≤ c.toNat ∧ c.toNat ≤ 122 then some (c.toNat - 97 + 26)
  else if 48 ≤ c.toNat ∧ c.toNat ≤ 57 then some (c.toNat - 48 + 52)
  else if c = '+' then some 62
  else if c = '/' then some 63
  else none

/-- base64 encoding (standard alphabet, `=` padding), as
`general_purpose::STANDARD.encode`. -/
def b64Encode : List Nat → List Char
  | b1 :: b2 :: b3 :: rest =>
    b64Char (b1 / 4) :: b64Char (b1 % 4 * 16 + b2 / 16) ::
      b64Char (b2 % 16 * 4 + b3 / 64) :: b64Char (b3 % 64) :: b64Encode rest
  | [b1, b2] => [b64Char (b1 / 4), b64Char (b1 % 4 * 16 + b2 / 16),
      b64Char (b2 % 16 * 4), '=']
  | [b1] => [b64Char (b1 / 4), b64Char (b1 % 4 * 16), '=', '=']
  | [] => []

/-- base64 decoding (standard alphabet, canonical `=` padding, zero trailing
bits required), as `general_purpose::STANDARD.decode`. -/
def b64Decode : List Char → Option (List Nat)
  | [] => some []
  | c1 :: c2 :: c3 :: c4 :: rest =>
    (b64Val? c1).bind fun s1 =>
      (b64Val? c2).bind fun s2 =>
        if c4 = '=' then
          if rest ≠ [] then none
          else if c3 = '=' then
            if s2 % 16 = 0 then some [s1 * 4 + s2 / 16] else none
          else
            (b64Val? c3).bind fun s3 =>
              if s3 % 4 = 0 then some [s1 * 4 + s2 / 16, s2 % 16 * 16 + s3 / 4]
              else none
        else
          (b64Val? c3).bind fun s3 =>
            (b64Val? c4).bind fun s4 =>
              (b64Decode rest).map
                (fun bs => (s1 * 4 + s2 / 16) :: (s2 % 16 * 16 + s3 / 4) :: (s3 % 4 * 64 + s4) :: bs)
  | _ => none

/-- `PaymentRequest::to_base64` from `models.rs`: base64 of the UTF-8 bytes of
the JSON text. -/
def PaymentRequest.to_base64 (r : PaymentRequest) : X402Result String :=
  (r.to_json).map (fun json => String.mk (b64Encode (utf8Encode json.data)))

/-- `PaymentRequest::from_base64` from `models.rs`: base64 decode (failure is
`Serialization`, via `From<base64::DecodeError>`), UTF-8 check (failure is
`InvalidPaymentRequest`), then JSON parse. -/
def PaymentRequest.from_base64 (encoded : String) : X402Result PaymentRequest :=
  match b64Decode encoded.data with
  | none => .error (.Serialization "Base64 decode error")
  | some bytes =>
    match utf8Decode bytes with
    | none => .error (.InvalidPaymentRequest "Invalid UTF-8 in base64 data")
    | some cs => PaymentRequest.from_json (String.mk cs)

/-- `PaymentAuthorization::to_header_value` from `models.rs`. -/
def PaymentAuthorization.to_header_value (p : PaymentAuthorization) : X402Result String :=
  (p.to_json).map (fun json => String.mk (b64Encode (utf8Encode json.data)))

/-- `PaymentAuthorization::from_header_value` from `models.rs`: base64 decode
(failure is `Serialization`), UTF-8 check (failure is
`InvalidPaymentAuthorization`), then JSON parse. -/
def PaymentAuthorization.from_header_value (encoded : String) :
    X402Result PaymentAuthorization :=
  match b64Decode encoded.data with
  | none => .error (.Serialization "Base64 decode error")
  | some bytes =>
    match utf8Decode bytes with
    | none => .error (.InvalidPaymentAuthorization "Invalid UTF-8 in header")
    | some cs => PaymentAuthorization.from_json (String.mk cs)

/-- Result of `get_transaction` for one on-chain transaction: its `meta.err`
field, plus the amount the transaction actually moved on-ledger (which
`verify_payment` never reads — it only inspects `meta.err`). -/
structure ChainTx where
  err : Option String
  transferredAmount : Nat
  deriving DecidableEq, Repr

/-- An instruction of the transfer transaction built by `create_payment`. -/
inductive Instruction where
  | createAssociatedTokenAccount (payer recipient mint : String)
  | transferChecked (source mint destination authority : String) (amount decimals : Nat)
  deriving DecidableEq, Repr

/-- The signed transaction submitted by `create_payment`: its instruction list,
fee payer and recent blockhash. -/
structure SolTransaction where
  instructions : List Instruction
  payer : String
  recent_blockhash : String
  deriving DecidableEq, Repr

/-- Oracle record standing for the Solana SDK boundary of
`payment_processor.rs`: address/signature syntax checks (`Pubkey::from_str`,
`Signature::from_str`), the pure `get_associated_token_address`, and the
`RpcClient` calls.  RPC-level failures carry the client error text; the
surrounding code maps them to `X402Error` kinds exactly as the Rust `map_err`
sites do. -/
structure RpcWorld where
  pubkeyOk : String → Bool
  sigOk : String → Bool
  ata : String → String → String
  tokenBalance : String → Except String Nat
  accountQuery : String → Except String Unit
  errIsAccountNotFound : String → Bool
  latestBlockhash : Except String String
  sendTx : SolTransaction → Except String String
  getTx : String → Except String ChainTx

/-- A Solana keypair, abstracted to the public key it signs for. -/
structure Keypair where
  pubkey : String
  deriving DecidableEq, Repr

/-- `SolanaPaymentProcessor::get_token_balance`, with the RPC failure branch
(`Network`); the `u64` parse of the RPC's amount string is assumed well-formed
(its `Blockchain` failure branch is not modelled). -/
def SolanaPaymentProcessor.get_token_balance (w : RpcWorld) (token_account : String) :
    X402Result Nat :=
  match w.tokenBalance token_account with
  | .error e => .error (.Network ("Failed to get token balance: " ++ e))
  | .ok b => .ok b

/-- `SolanaPaymentProcessor::account_exists`: an RPC error mentioning
`AccountNotFound` means "does not exist", any other RPC error is `Network`. -/
def SolanaPaymentProcessor.account_exists (w : RpcWorld) (account : String) :
    X402Result Bool :=
  match w.accountQuery account with
  | .ok _ => .ok true
  | .error e =>
    if w.errIsAccountNotFound e then .ok false
    else .error (.Network ("Failed to check account existence: " ++ e))

/-- `SolanaPaymentProcessor::check_balance`. -/
def SolanaPaymentProcessor.check_balance (w : RpcWorld) (token_account : String)
    (required_amount : Nat) : X402Result Unit :=
  match SolanaPaymentProcessor.get_token_balance w token_account with
  | .error e => .error e
  | .ok balance =>
    if balance < required_amount then
      .error (.InsufficientFunds ("Insufficient balance: " ++
        String.mk (renderNat required_amount) ++ " required, " ++
        String.mk (renderNat balance) ++ " available"))
    else .ok ()

/-- `SolanaPaymentProcessor::create_payment` from `payment_processor.rs`, step
for step: expiry check, address parsing (`InvalidPaymentRequest`; the parse
error detail is abstracted), amount parsing, balance check, recipient-account
provisioning, transfer construction, blockhash fetch, broadcast
(`TransactionBroadcast` on failure), and the final `PaymentAuthorization::new`.
The transaction handed to the RPC oracle is the rendered instruction list. -/
def SolanaPaymentProcessor.create_payment (w : RpcWorld) (now : Int)
    (request : PaymentRequest) (payer : Keypair) : X402Result PaymentAuthorization :=
  if request.is_expired now then
    .error (.PaymentExpired ("Payment request expired at " ++
      String.mk (renderTime request.expires_at)))
  else if ¬ w.pubkeyOk request.asset_address then
    .error (.InvalidPaymentRequest "Invalid token mint address")
  else if ¬ w.pubkeyOk request.payment_address then
    .error (.InvalidPaymentRequest "Invalid payment address")
  else do
    let amount ← SolanaPaymentProcessor.parse_amount request.max_amount_required
    let sender_ata := w.ata payer.pubkey request.asset_address
    let recipient_ata := w.ata request.payment_address request.asset_address
    let _ ← SolanaPaymentProcessor.check_balance w sender_ata amount
    let recipient_exists ← SolanaPaymentProcessor.account_exists w recipient_ata
    let instructions : List Instruction :=
      (if recipient_exists then []
       else [Instruction.createAssociatedTokenAccount payer.pubkey
              request.payment_address request.asset_address]) ++
      [Instruction.transferChecked sender_ata request.asset_address recipient_ata
        payer.pubkey amount 6]
    let _recent_blockhash ←
      match w.latestBlockhash with
      | .error e => Except.error (X402Error.Network ("Failed to get recent blockhash: " ++ e))
      | .ok h => Except.ok h
    let signature ←
      match w.sendTx (SolTransaction.mk instructions payer.pubkey _recent_blockhash) with
      | .error e =>
        Except.error (X402Error.TransactionBroadcast ("Failed to broadcast transaction: " ++ e))
      | .ok sg => Except.ok sg
    .ok (PaymentAuthorization.new now request.payment_id request.max_amount_required
      request.payment_address request.asset_address request.network signature payer.pubkey)

/-- `SolanaPaymentProcessor::verify_payment` from `payment_processor.rs`:
signature syntax check, transaction lookup (`PaymentVerification` on fetch
failure), on-chain success check via `meta.err`, then the amount comparison —
against the proof's own `actual_amount` string. -/
def SolanaPaymentProcessor.verify_payment (w : RpcWorld)
    (authorization : PaymentAuthorization) (expected_amount : String) : X402Result Bool :=
  if ¬ w.sigOk authorization.signature then
    .error (.InvalidPaymentAuthorization "Invalid signature")
  else do
    let transaction ←
      match w.getTx authorization.signature with
      | .error e =>
        Except.error (X402Error.PaymentVerification ("Failed to fetch transaction: " ++ e))
      | .ok tx => Except.ok tx
    if transaction.err.isSome then
      .error (.PaymentVerification "Transaction failed on-chain")
    else do
      let expected ← SolanaPaymentProcessor.parse_amount expected_amount
      let actual ← SolanaPaymentProcessor.parse_amount authorization.actual_amount
      if actual < expected then
        .error (.PaymentVerification ("Payment amount " ++ authorization.actual_amount ++
          " is less than required " ++ expected_amount))
      else .ok true

/-- `AutoClientOptions` from `auto_client.rs`. -/
structure AutoClientOptions where
  max_payment_amount : String
  auto_retry : Bool
  max_retries : Nat
  deriving DecidableEq, Repr

/-- `Default for AutoClientOptions`. -/
def AutoClientOptions.default : AutoClientOptions := ⟨"10.0", true, 3⟩

/-- An HTTP response as the client observes it: status code and body text. -/
structure HttpResponse where
  status : Nat
  body : String
  deriving DecidableEq, Repr

/-- `X402Client::parse_payment_request` from `client.rs` (the body read is
modelled as pure; its `Network` failure branch is not modelled). -/
def X402Client.parse_payment_request (response : HttpResponse) : X402Result PaymentRequest :=
  if response.status ≠ 402 then
    .error (.InvalidPaymentRequest ("Response status is not 402, got " ++
      String.mk (renderNat response.status)))
  else PaymentRequest.from_json response.body

/-- Oracle record standing for the HTTP transport and the payment processor
behind `X402Client`, threading an external state `σ` (server and ledger state):
`send` is `get`/`post` (with or without the `X-Payment-Authorization` header —
the method, url and body are fixed for one logical call), `createPay` is
`X402Client::create_payment`. -/
structure ClientWorld (σ : Type) where
  send : σ → Option PaymentAuthorization → X402Result HttpResponse × σ
  createPay : σ → PaymentRequest → X402Result PaymentAuthorization × σ

/-- Display rendering of a parsed decimal value (model of `f64` `Display`,
abstracted to a sign/mantissa/exponent rendering). -/
def renderDec (d : Dec) : String :=
  String.mk ((if d.neg then ['-'] else []) ++ renderNat d.mant ++ 'e' :: renderTime d.exp)

/-- The ceiling-violation message of `check_payment_amount`:
`format!("Payment amount {} exceeds maximum allowed amount {}", required, max)`. -/
def ceilingMsg (required_amount max_amount : Dec) : String :=
  "Payment amount " ++ renderDec required_amount ++
    " exceeds maximum allowed amount " ++ renderDec max_amount

/-- `X402AutoClient::check_payment_amount` from `auto_client.rs`: parse the
configured ceiling (`Configuration` on failure), parse the demanded amount
(`InvalidPaymentRequest` on failure), fail with `PaymentRequired` naming both
values when the demand exceeds the ceiling. -/
def X402AutoClient.check_payment_amount (options : AutoClientOptions)
    (request : PaymentRequest) : X402Result Unit :=
  match parseDecimal options.max_payment_amount with
  | none => .error (.Configuration "Invalid max_payment_amount")
  | some max_amount =>
    match parseDecimal request.max_amount_required with
    | none => .error (.InvalidPaymentRequest "Invalid payment amount")
    | some required_amount =>
      if required_amount.gtB max_amount then
        .error (.PaymentRequired (ceilingMsg required_amount max_amount))
      else .ok ()

/-- The retry loop of `X402AutoClient::request` from `auto_client.rs`, with the
retry counter explicit and, alongside the result, the number of
`create_payment` invocations made.  One iteration: issue the unauthenticated
request; on 402 check the retry budget (terminal `PaymentRequired` when
exhausted), parse the demand, enforce the ceiling, create the payment, retry
with the proof header; a successful retry returns, a second 402 loops with the
incremented counter, anything else is returned as-is. -/
def X402AutoClient.requestLoop {σ : Type} (options : AutoClientOptions)
    (w : ClientWorld σ) (retries : Nat) (s : σ) (pays : Nat) :
    X402Result HttpResponse × Nat :=
  match w.send s none with
  | (.error e, _) => (.error e, pays)
  | (.ok response, s1) =>
    if response.status = 402 then
      if _h : options.max_retries ≤ retries then
        (.error (.PaymentRequired "Maximum retry attempts reached"), pays)
      else
        match X402Client.parse_payment_request response with
        | .error e => (.error e, pays)
        | .ok payment_request =>
          match X402AutoClient.check_payment_amount options payment_request with
          | .error e => (.error e, pays)
          | .ok _ =>
            match w.createPay s1 payment_request with
            | (.error e, _) => (.error e, pays + 1)
            | (.ok authorization, s2) =>
              match w.send s2 (some authorization) with
              | (.error e, _) => (.error e, pays + 1)
              | (.ok retry_response, s3) =>
                if 200 ≤ retry_response.status ∧ retry_response.status < 300 then
                  (.ok retry_response, pays + 1)
                else if retry_response.status = 402 then
                  X402AutoClient.requestLoop options w (retries + 1) s3 (pays + 1)
                else (.ok retry_response, pays + 1)
    else (.ok response, pays)
termination_by options.max_retries - retries
decreasing_by omega

/-- `X402AutoClient::request` for one logical call (`retries = 0`), returning
the result and the number of payment attempts. -/
def X402AutoClient.request {σ : Type} (options : AutoClientOptions)
    (w : ClientWorld σ) (s : σ) : X402Result HttpResponse × Nat :=
  X402AutoClient.requestLoop options w 0 s 0

/-- The world with every looked-up transaction's on-ledger transferred amount
replaced by `f` of the signature (everything else unchanged). -/
def RpcWorld.setTransferred (w : RpcWorld) (f : String → Nat) : RpcWorld :=
  { w with getTx := fun s => (w.getTx s).map (fun tx => ⟨tx.err, f s⟩) }

/-! ### Test fixtures used by the witnesses -/

/-- A benign RPC oracle: every address and signature parses, every account
exists with a large balance, every broadcast succeeds, and every looked-up
transaction succeeded on-ledger while actually transferring `0`. -/
def testWorld : RpcWorld :=
  { pubkeyOk := fun _ => true
    sigOk := fun _ => true
    ata := fun owner mint => owner ++ "/" ++ mint
    tokenBalance := fun _ => .ok 1000000000
    accountQuery := fun _ => .ok ()
    errIsAccountNotFound := fun _ => false
    latestBlockhash := .ok "blockhash1"
    sendTx := fun _ => .ok "5VERsig"
    getTx := fun _ => .ok ⟨none, 0⟩ }

/-- A concrete demand for the given price and expiry instant. -/
def demandAt (amount : String) (expires_at : Int) : PaymentRequest :=
  PaymentRequest.new amount "EPjFmintaddr" "7xKXrecipient" "solana-devnet" expires_at
    "nonce123" "payment123" "/api/premium-data"

/-- A concrete proof claiming the given amount. -/
def proofAmount (amount : String) : PaymentAuthorization :=
  PaymentAuthorization.new 0 "payment123" amount "7xKXrecipient" "EPjFmintaddr"
    "solana-devnet" "5VERsig" "payerpk"

/-- The proof `create_payment` mints in `testWorld` for `demandAt "0.10" 9999`. -/
def expectedAuth : PaymentAuthorization :=
  PaymentAuthorization.new 0 "payment123" "0.10" "7xKXrecipient" "EPjFmintaddr"
    "solana-devnet" "5VERsig" "payerpk"

/-- A resource that answers 402 with a demand for "1.00" to every request. -/
def ceilingWorld : ClientWorld Unit :=
  { send := fun _ _ =>
      (.ok ⟨402, String.mk (renderObj (demandAt "1.00" 9999).jsonFields)⟩, ())
    createPay := fun _ _ => (.ok (proofAmount "1.00"), ()) }

/-- Auto-client options with a "0.50" spending ceiling. -/
def ceilingOptions : AutoClientOptions := ⟨"0.50", true, 3⟩

/-- A resource that answers 402 with a within-ceiling demand for "0.10" to every
request, authenticated or not, and a processor that always pays. -/
def always402World : ClientWorld Unit :=
  { send := fun _ _ =>
      (.ok ⟨402, String.mk (renderObj (demandAt "0.10" 9999).jsonFields)⟩, ())
    createPay := fun _ _ => (.ok (proofAmount "0.10"), ()) }

/-! ### Helper lemmas: decimal digit rendering round-trips -/

theorem char_toNat_ofNat_valid (n : Nat) (h : Nat.isValidChar n) :
    (Char.ofNat n).toNat = n := by
  unfold Char.ofNat
  rw [dif_pos h]
  have hlt : n < 2 ^ 32 := by
    rcases h with h | h
    · omega
    · omega
  simp [Char.toNat, Char.ofNatAux, UInt32.toNat, UInt32.ofNatCore]

theorem char_toNat_ofNat_small (n : Nat) (h : n < 55296) : (Char.ofNat n).toNat = n :=
  char_toNat_ofNat_valid n (Or.inl h)

theorem digitChar_toNat (d : Nat) (h : d < 10) : (digitChar d).toNat = 48 + d := by
  unfold digitChar
  exact char_toNat_ofNat_small (48 + d) (by omega)

theorem digitVal?_digitChar (d : Nat) (h : d < 10) : digitVal? (digitChar d) = some d := by
  unfold digitVal?
  rw [digitChar_toNat d h, if_pos (by omega)]
  congr 1
  omega

theorem digitChar_ne_dash (d : Nat) (h : d < 10) : digitChar d ≠ '-' := by
  intro he
  have h2 := congrArg Char.toNat he
  rw [digitChar_toNat d h] at h2
  have h3 : ('-').toNat = 45 := rfl
  omega

theorem parseDigitsAux_map (ds : List Nat) (h : ∀ d ∈ ds, d < 10) (acc : Nat) :
    parseDigitsAux acc (ds.map digitChar) =
      some (ds.foldl (fun a d => a * 10 + d) acc) := by
  induction ds generalizing acc with
  | nil => rfl
  | cons d t ih =>
    have hd : d < 10 := h d (List.mem_cons_self ..)
    simp only [List.map_cons, parseDigitsAux, digitVal?_digitChar d hd, List.foldl_cons]
    exact ih (fun x hx => h x (List.mem_cons_of_mem _ hx)) (acc * 10 + d)

theorem foldl_reverse_ofDigits (l : List Nat) (acc : Nat) :
    (l.reverse).foldl (fun a d => a * 10 + d) acc =
      acc * 10 ^ l.length + Nat.ofDigits 10 l := by
  induction l generalizing acc with
  | nil => simp
  | cons d t ih =>
    simp only [List.reverse_cons, List.foldl_append, List.foldl_cons, List.foldl_nil, ih,
      List.length_cons, Nat.ofDigits_cons]
    ring

theorem parseNat?_renderNat (n : Nat) : parseNat? (renderNat n) = some n := by
  by_cases h0 : n = 0
  · subst h0
    decide
  · unfold renderNat
    rw [if_neg h0, ← List.map_reverse]
    have hne : (Nat.digits 10 n).reverse.map digitChar ≠ [] := by
      simp [Nat.digits_ne_nil_iff_ne_zero.mpr h0]
    unfold parseNat?
    rw [if_neg hne]
    rw [parseDigitsAux_map _ (fun d hd =>
      Nat.digits_lt_base (by omega) (List.mem_reverse.mp hd)) 0]
    rw [foldl_reverse_ofDigits]
    simp [Nat.ofDigits_digits]

theorem mem_renderNat_not_dash (n : Nat) (c : Char) (hc : c ∈ renderNat n) : c ≠ '-' := by
  unfold renderNat at hc
  by_cases h0 : n = 0
  · rw [if_pos h0] at hc
    simp only [List.mem_singleton] at hc
    subst hc
    decide
  · rw [if_neg h0] at hc
    rw [List.mem_reverse, List.mem_map] at hc
    obtain ⟨d, hd, hdc⟩ := hc
    subst hdc
    exact digitChar_ne_dash d (Nat.digits_lt_base (by omega) hd)

theorem parseTime?_renderTime (t : Int) : parseTime? (renderTime t) = some t := by
  by_cases hneg : t < 0
  · have h1 : renderTime t = '-' :: renderNat (-t).toNat := by
      unfold renderTime
      rw [if_pos hneg]
    rw [h1]
    unfold parseTime?
    simp only [List.head?_cons, List.tail_cons, if_true, parseNat?_renderNat,
      Option.map_some', Option.some.injEq, reduceIte]
    omega
  · have h1 : renderTime t = renderNat t.toNat := by
      unfold renderTime
      rw [if_neg hneg]
    rw [h1]
    unfold parseTime?
    have hhd : ¬ (renderNat t.toNat).head? = some '-' := by
      intro h
      exact mem_renderNat_not_dash t.toNat '-' (List.mem_of_mem_head? h) rfl
    rw [if_neg hhd, parseNat?_renderNat]
    simp only [Option.map_some', Option.some.injEq]
    omega


/-! ### Helper lemmas: JSON string escaping round-trip -/

theorem hexDigitChar_toNat (v : Nat) (h : v < 16) :
    (hexDigitChar v).toNat = if v < 10 then 48 + v else 87 + v := by
  unfold hexDigitChar
  by_cases h10 : v < 10
  · rw [if_pos h10, if_pos h10]
    exact char_toNat_ofNat_small _ (by omega)
  · rw [if_neg h10, if_neg h10]
    exact char_toNat_ofNat_small _ (by omega)

theorem hexVal?_hexDigitChar (v : Nat) (h : v < 16) : hexVal? (hexDigitChar v) = some v := by
  unfold hexVal?
  rw [hexDigitChar_toNat v h]
  by_cases h10 : v < 10
  · rw [if_pos h10, if_pos (by omega : 48 ≤ 48 + v ∧ 48 + v ≤ 57)]
    congr 1
    omega
  · rw [if_neg h10, if_neg (by omega : ¬(48 ≤ 87 + v ∧ 87 + v ≤ 57)),
      if_pos (by omega : 97 ≤ 87 + v ∧ 87 + v ≤ 102)]
    congr 1
    omega


theorem parseJStringF_escape (s : List Char) :
    ∀ (fuel : Nat) (rest : List Char), s.length < fuel →
      parseJStringF fuel (escapeStr s ++ '"' :: rest) = some (s, rest) := by
  induction s with
  | nil =>
    intro fuel rest hf
    match fuel, hf with
    | f + 1, _ =>
      simp [escapeStr, parseJStringF, parseJStringStep]
  | cons c cs ih =>
    intro fuel rest hf
    match fuel, hf with
    | f + 1, hf2 =>
      have hrec := ih f rest (by simp only [List.length_cons] at hf2; omega)
      rw [escapeStr, List.append_assoc, parseJStringF]
      unfold escapeChar
      by_cases h1 : c = '"'
      · rw [if_pos h1]
        simp [parseJStringStep, escapeCode?, hrec, h1]
      · rw [if_neg h1]
        by_cases h2 : c = '\\'
        · rw [if_pos h2]
          simp [parseJStringStep, escapeCode?, hrec, h2]
        · rw [if_neg h2]
          by_cases h3 : c = Char.ofNat 8
          · rw [if_pos h3]
            simp [parseJStringStep, escapeCode?, hrec, h3]
          · rw [if_neg h3]
            by_cases h4 : c = Char.ofNat 12
            · rw [if_pos h4]
              simp [parseJStringStep, escapeCode?, hrec, h4]
            · rw [if_neg h4]
              by_cases h5 : c = '\n'
              · rw [if_pos h5]
                simp [parseJStringStep, escapeCode?, hrec, h5]
              · rw [if_neg h5]
                by_cases h6 : c = '\r'
                · rw [if_pos h6]
                  simp [parseJStringStep, escapeCode?, hrec, h6]
                · rw [if_neg h6]
                  by_cases h7 : c = '\t'
                  · rw [if_pos h7]
                    simp [parseJStringStep, escapeCode?, hrec, h7]
                  · rw [if_neg h7]
                    by_cases h8 : c.toNat < 32
                    · rw [if_pos h8]
                      have hhi : c.toNat / 16 < 16 := by omega
                      have hlo : c.toNat % 16 < 16 := by omega
                      have hzero : hexVal? '0' = some 0 := by decide
                      have hn : ((0 * 16 + 0) * 16 + c.toNat / 16) * 16 + c.toNat % 16 =
                          c.toNat := by omega
                      have hval2 : Nat.isValidChar c.toNat := Or.inl (by omega)
                      simp [parseJStringStep, parseHex4, hzero,
                        hexVal?_hexDigitChar _ hhi, hexVal?_hexDigitChar _ hlo, hn, hval2,
                        hrec, Char.ofNat_toNat]
                      rw [show c.toNat / 16 * 16 + c.toNat % 16 = c.toNat from by omega]
                      exact ⟨hval2, Char.ofNat_toNat c⟩
                    · rw [if_neg h8]
                      simp [parseJStringStep, h1, h2, h8, hrec]

theorem escapeStr_length (s : List Char) : s.length ≤ (escapeStr s).length := by
  induction s with
  | nil => simp [escapeStr]
  | cons c cs ih =>
    rw [escapeStr, List.length_append, List.length_cons]
    have h1 : 1 ≤ (escapeChar c).length := by
      unfold escapeChar
      repeat' split
      all_goals simp
    omega

theorem parseJString_escape (s rest : List Char) :
    parseJString (escapeStr s ++ '"' :: rest) = some (s, rest) := by
  apply parseJStringF_escape
  rw [List.length_append, List.length_cons]
  have := escapeStr_length s
  omega

theorem renderKV_length_pos (k v : List Char) : 1 ≤ (renderKV k v).length := by
  simp [renderKV, renderJString]

theorem length_le_renderMembers (l : List (List Char × List Char)) :
    l.length ≤ (renderMembers l).length := by
  induction l with
  | nil => simp [renderMembers]
  | cons kv t ih =>
    have hkv := renderKV_length_pos kv.1 kv.2
    match t with
    | [] => simp [renderMembers]
    | x :: xs =>
      have hr : renderMembers (kv :: x :: xs) =
          renderKV kv.1 kv.2 ++ ',' :: renderMembers (x :: xs) := rfl
      rw [hr]
      simp only [List.length_append, List.length_cons]
      simp only [List.length_cons] at ih
      omega

theorem parseMembers_render (l : List (List Char × List Char)) :
    ∀ fuel, l ≠ [] → l.length ≤ fuel →
      parseMembers fuel (renderMembers l) = some (l, []) := by
  induction l with
  | nil => intro fuel hne _; exact absurd rfl hne
  | cons kv t ih =>
    intro fuel _ hfuel
    match fuel, hfuel with
    | f + 1, hfuel2 =>
      match t with
      | [] =>
        show parseMembers (f + 1) (renderKV kv.1 kv.2 ++ ['}']) = some ([kv], [])
        rw [renderKV, renderJString, renderJString]
        simp only [List.cons_append, List.append_assoc, List.singleton_append,
          List.nil_append]
        rw [parseMembers]
        simp only [parseJString_escape, Option.some_bind]
      | x :: xs =>
        show parseMembers (f + 1)
            (renderKV kv.1 kv.2 ++ ',' :: renderMembers (x :: xs)) = some (kv :: x :: xs, [])
        rw [renderKV, renderJString, renderJString]
        simp only [List.cons_append, List.append_assoc, List.singleton_append,
          List.nil_append]
        rw [parseMembers]
        simp only [parseJString_escape, Option.some_bind]
        have hrec := ih f (by simp) (by simp only [List.length_cons] at hfuel2 ⊢; omega)
        simp [hrec]

theorem lookup_cons_key {β : Type} (key k : List Char) (v : β) (rest : List (List Char × β)) :
    List.lookup key ((k, v) :: rest) = if key = k then some v else List.lookup key rest := by
  by_cases h : key = k
  · simp [List.lookup, h]
  · have hb : (key == k) = false := beq_eq_false_iff_ne.mpr h
    simp [List.lookup, hb, if_neg h]

theorem renderMembers_cons_head (kv : List Char × List Char)
    (t : List (List Char × List Char)) :
    (renderMembers (kv :: t)).head? = some '"' := by
  match t with
  | [] => simp [renderMembers, renderKV, renderJString]
  | x :: xs =>
    have hr : renderMembers (kv :: x :: xs) =
        renderKV kv.1 kv.2 ++ ',' :: renderMembers (x :: xs) := rfl
    rw [hr]
    simp [renderKV, renderJString]

theorem parseObj_render (l : List (List Char × List Char)) :
    parseObj (renderObj l) = some l := by
  match l with
  | [] => decide
  | kv :: t =>
    have hne : renderMembers (kv :: t) ≠ ['}'] := by
      intro h
      have h2 := renderMembers_cons_head kv t
      rw [h] at h2
      simp at h2
    have hr : renderObj (kv :: t) = '{' :: renderMembers (kv :: t) := rfl
    rw [hr]
    have hlen : (kv :: t).length ≤ ('{' :: renderMembers (kv :: t)).length := by
      have := length_le_renderMembers (kv :: t)
      simp only [List.length_cons] at this ⊢
      omega
    simp only [parseObj, if_neg hne,
      parseMembers_render (kv :: t) ('{' :: renderMembers (kv :: t)).length (by simp) hlen,
      Option.some_bind, if_pos rfl, if_true]

/-! ### Helper lemmas: struct-level serialization round-trips -/

theorem request_ofFields_jsonFields (r : PaymentRequest) :
    PaymentRequest.ofFields r.jsonFields = some r := by
  obtain ⟨a, ty, aa, pa, nw, ex, no, pid, rs, de⟩ := r
  match de with
  | none =>
    simp [PaymentRequest.jsonFields, PaymentRequest.ofFields, lookup_cons_key,
      parseTime?_renderTime]
  | some d =>
    simp [PaymentRequest.jsonFields, PaymentRequest.ofFields, lookup_cons_key,
      parseTime?_renderTime]

theorem request_from_json_to_json (r : PaymentRequest) (s : String)
    (h : r.to_json = .ok s) : PaymentRequest.from_json s = .ok r := by
  have hs : s = String.mk (renderObj r.jsonFields) := by
    simpa [PaymentRequest.to_json] using h.symm
  subst hs
  unfold PaymentRequest.from_json
  rw [show (String.mk (renderObj r.jsonFields)).data = renderObj r.jsonFields from rfl]
  rw [parseObj_render, Option.some_bind, request_ofFields_jsonFields]

theorem authorization_ofFields_jsonFields (p : PaymentAuthorization) :
    PaymentAuthorization.ofFields p.jsonFields = some p := by
  obtain ⟨pid, am, pa, aa, nw, ts, sg, pk, th⟩ := p
  match th with
  | none =>
    simp [PaymentAuthorization.jsonFields, PaymentAuthorization.ofFields, lookup_cons_key,
      parseTime?_renderTime]
  | some h =>
    simp [PaymentAuthorization.jsonFields, PaymentAuthorization.ofFields, lookup_cons_key,
      parseTime?_renderTime]

theorem authorization_from_json_to_json (p : PaymentAuthorization) (s : String)
    (h : p.to_json = .ok s) : PaymentAuthorization.from_json s = .ok p := by
  have hs : s = String.mk (renderObj p.jsonFields) := by
    simpa [PaymentAuthorization.to_json] using h.symm
  subst hs
  unfold PaymentAuthorization.from_json
  rw [show (String.mk (renderObj p.jsonFields)).data = renderObj p.jsonFields from rfl]
  rw [parseObj_render, Option.some_bind, authorization_ofFields_jsonFields]

/-! ### Helper lemmas: UTF-8 round-trip -/

theorem char_valid_ranges (c : Char) :
    c.toNat < 55296 ∨ (57343 < c.toNat ∧ c.toNat < 1114112) := by
  have h := c.valid
  rcases h with h | h
  · left; exact h
  · right; exact h

theorem utf8DecodeStep_encodeChar (rec : List Nat → Option (List Char)) (c : Char)
    (bs : List Nat) :
    utf8DecodeStep rec (utf8EncodeChar c ++ bs) = (rec bs).map (fun cs => c :: cs) := by
  have hv := char_valid_ranges c
  unfold utf8EncodeChar
  by_cases h1 : c.toNat < 128
  · rw [if_pos h1]
    have e0 : c.toNat < 128 := h1
    simp [utf8DecodeStep, e0, Char.ofNat_toNat]
  · rw [if_neg h1]
    by_cases h2 : c.toNat < 2048
    · rw [if_pos h2]
      have e1 : ¬ (192 + c.toNat / 64 < 128) := by omega
      have e2 : ¬ (192 + c.toNat / 64 < 192) := by omega
      have e3 : 192 + c.toNat / 64 < 224 := by omega
      have e4 : 128 ≤ 128 + c.toNat % 64 ∧ 128 + c.toNat % 64 < 192 := by omega
      have e5 : (192 + c.toNat / 64 - 192) * 64 + (128 + c.toNat % 64 - 128) = c.toNat := by
        omega
      have e5b : c.toNat / 64 * 64 + c.toNat % 64 = c.toNat := by omega
      have e6 : ¬ (c.toNat < 128) := h1
      simp [utf8DecodeStep, e1, e2, e3, e4, e5, e5b, e6, Char.ofNat_toNat]
    · rw [if_neg h2]
      by_cases h3 : c.toNat < 65536
      · rw [if_pos h3]
        have e1 : ¬ (224 + c.toNat / 4096 < 128) := by omega
        have e2 : ¬ (224 + c.toNat / 4096 < 192) := by omega
        have e3 : ¬ (224 + c.toNat / 4096 < 224) := by omega
        have e4 : 224 + c.toNat / 4096 < 240 := by omega
        have e5 : (128 ≤ 128 + c.toNat / 64 % 64 ∧ 128 + c.toNat / 64 % 64 < 192) ∧
            128 ≤ 128 + c.toNat % 64 ∧ 128 + c.toNat % 64 < 192 := by omega
        have e6 : (224 + c.toNat / 4096 - 224) * 4096 + (128 + c.toNat / 64 % 64 - 128) * 64 +
            (128 + c.toNat % 64 - 128) = c.toNat := by omega
        have e6b : c.toNat / 4096 * 4096 + c.toNat / 64 % 64 * 64 + c.toNat % 64 =
            c.toNat := by omega
        have e7 : ¬ (c.toNat < 2048 ∨ (55296 ≤ c.toNat ∧ c.toNat < 57344)) := by omega
        simp [utf8DecodeStep, e1, e2, e3, e4, e5, e6, e6b, e7, Char.ofNat_toNat]
      · rw [if_neg h3]
        have e1 : ¬ (240 + c.toNat / 262144 < 128) := by omega
        have e2 : ¬ (240 + c.toNat / 262144 < 192) := by omega
        have e3 : ¬ (240 + c.toNat / 262144 < 224) := by omega
        have e4 : ¬ (240 + c.toNat / 262144 < 240) := by omega
        have e4b : 240 + c.toNat / 262144 < 248 := by omega
        have e5 : (128 ≤ 128 + c.toNat / 4096 % 64 ∧ 128 + c.toNat / 4096 % 64 < 192) ∧
            (128 ≤ 128 + c.toNat / 64 % 64 ∧ 128 + c.toNat / 64 % 64 < 192) ∧
            128 ≤ 128 + c.toNat % 64 ∧ 128 + c.toNat % 64 < 192 := by omega
        have e6 : (240 + c.toNat / 262144 - 240) * 262144 +
            (128 + c.toNat / 4096 % 64 - 128) * 4096 +
            (128 + c.toNat / 64 % 64 - 128) * 64 + (128 + c.toNat % 64 - 128) = c.toNat := by
          omega
        have e6b : c.toNat / 262144 * 262144 + c.toNat / 4096 % 64 * 4096 +
            c.toNat / 64 % 64 * 64 + c.toNat % 64 = c.toNat := by omega
        have e7 : ¬ (c.toNat < 65536 ∨ 1114112 ≤ c.toNat) := by omega
        simp [utf8DecodeStep, e1, e2, e3, e4, e4b, e5, e6, e6b, e7, Char.ofNat_toNat]

theorem utf8EncodeChar_length_pos (c : Char) : 1 ≤ (utf8EncodeChar c).length := by
  unfold utf8EncodeChar
  simp only []
  split_ifs <;> simp

theorem utf8DecodeF_encode (s : List Char) :
    ∀ fuel, s.length ≤ fuel → utf8DecodeF fuel (utf8Encode s) = some s := by
  induction s with
  | nil =>
    intro fuel _
    match fuel with
    | 0 => rfl
    | f + 1 => rfl
  | cons c cs ih =>
    intro fuel hf
    match fuel, hf with
    | f + 1, hf2 =>
      rw [utf8Encode, utf8DecodeF, utf8DecodeStep_encodeChar,
        ih f (by simp only [List.length_cons] at hf2; omega)]
      rfl

theorem utf8Decode_encode (s : List Char) : utf8Decode (utf8Encode s) = some s := by
  apply utf8DecodeF_encode
  induction s with
  | nil => simp [utf8Encode]
  | cons c cs ih =>
    rw [utf8Encode, List.length_append, List.length_cons]
    have := utf8EncodeChar_length_pos c
    omega

theorem utf8EncodeChar_lt (c : Char) : ∀ b ∈ utf8EncodeChar c, b < 256 := by
  have hv := char_valid_ranges c
  unfold utf8EncodeChar
  intro b hb
  by_cases h1 : c.toNat < 128
  · rw [if_pos h1] at hb
    simp only [List.mem_singleton] at hb
    omega
  · rw [if_neg h1] at hb
    by_cases h2 : c.toNat < 2048
    · rw [if_pos h2] at hb
      simp only [List.mem_cons, List.mem_singleton, List.not_mem_nil, or_false] at hb
      rcases hb with rfl | rfl <;> omega
    · rw [if_neg h2] at hb
      by_cases h3 : c.toNat < 65536
      · rw [if_pos h3] at hb
        simp only [List.mem_cons, List.mem_singleton, List.not_mem_nil, or_false] at hb
        rcases hb with rfl | rfl | rfl <;> omega
      · rw [if_neg h3] at hb
        simp only [List.mem_cons, List.mem_singleton, List.not_mem_nil, or_false] at hb
        rcases hb with rfl | rfl | rfl | rfl <;> omega

theorem utf8Encode_lt (s : List Char) : ∀ b ∈ utf8Encode s, b < 256 := by
  induction s with
  | nil => intro b hb; simp [utf8Encode] at hb
  | cons c cs ih =>
    intro b hb
    rw [utf8Encode, List.mem_append] at hb
    rcases hb with hb | hb
    · exact utf8EncodeChar_lt c b hb
    · exact ih b hb

/-! ### Helper lemmas: base64 round-trip -/

theorem b64Val?_b64Char (v : Nat) (h : v < 64) : b64Val? (b64Char v) = some v := by
  have hall : ∀ x : Fin 64, b64Val? (b64Char x.val) = some x.val := by decide
  exact hall ⟨v, h⟩

theorem b64Char_ne_pad (v : Nat) (h : v < 64) : b64Char v ≠ '=' := by
  have hall : ∀ x : Fin 64, b64Char x.val ≠ '=' := by decide
  exact hall ⟨v, h⟩

theorem b64Decode_encode :
    ∀ bs : List Nat, (∀ b ∈ bs, b < 256) → b64Decode (b64Encode bs) = some bs
  | [], _ => rfl
  | [b1], h => by
    have hb1 : b1 < 256 := h b1 (by simp)
    have hv1 := b64Val?_b64Char (b1 / 4) (by omega)
    have hv2 := b64Val?_b64Char (b1 % 4 * 16) (by omega)
    have hz : b1 % 4 * 16 % 16 = 0 := by omega
    simp [b64Encode, b64Decode, hv1, hv2, hz]
    omega
  | [b1, b2], h => by
    have hb1 : b1 < 256 := h b1 (by simp)
    have hb2 : b2 < 256 := h b2 (by simp)
    have hv1 := b64Val?_b64Char (b1 / 4) (by omega)
    have hv2 := b64Val?_b64Char (b1 % 4 * 16 + b2 / 16) (by omega)
    have hv3 := b64Val?_b64Char (b2 % 16 * 4) (by omega)
    have hne := b64Char_ne_pad (b2 % 16 * 4) (by omega)
    have hz : b2 % 16 * 4 % 4 = 0 := by omega
    simp [b64Encode, b64Decode, hv1, hv2, hv3, hne, hz]
    omega
  | b1 :: b2 :: b3 :: rest, h => by
    have hb1 : b1 < 256 := h b1 (by simp)
    have hb2 : b2 < 256 := h b2 (by simp)
    have hb3 : b3 < 256 := h b3 (by simp)
    have hv1 := b64Val?_b64Char (b1 / 4) (by omega)
    have hv2 := b64Val?_b64Char (b1 % 4 * 16 + b2 / 16) (by omega)
    have hv3 := b64Val?_b64Char (b2 % 16 * 4 + b3 / 64) (by omega)
    have hv4 := b64Val?_b64Char (b3 % 64) (by omega)
    have hne := b64Char_ne_pad (b3 % 64) (by omega)
    have hrec := b64Decode_encode rest (fun b hb => h b (by simp [hb]))
    simp [b64Encode, b64Decode, hv1, hv2, hv3, hv4, hne, hrec]
    omega

theorem request_from_base64_to_base64 (r : PaymentRequest) (e : String)
    (h : r.to_base64 = .ok e) : PaymentRequest.from_base64 e = .ok r := by
  have he : e = String.mk (b64Encode (utf8Encode (renderObj r.jsonFields))) := by
    simpa [PaymentRequest.to_base64, PaymentRequest.to_json, Except.map] using h.symm
  subst he
  unfold PaymentRequest.from_base64
  rw [show (String.mk (b64Encode (utf8Encode (renderObj r.jsonFields)))).data =
    b64Encode (utf8Encode (renderObj r.jsonFields)) from rfl]
  simp only [b64Decode_encode _ (utf8Encode_lt (renderObj r.jsonFields)), utf8Decode_encode]
  exact request_from_json_to_json r _ rfl

theorem authorization_from_header_to_header (p : PaymentAuthorization) (e : String)
    (h : p.to_header_value = .ok e) : PaymentAuthorization.from_header_value e = .ok p := by
  have he : e = String.mk (b64Encode (utf8Encode (renderObj p.jsonFields))) := by
    simpa [PaymentAuthorization.to_header_value, PaymentAuthorization.to_json,
      Except.map] using h.symm
  subst he
  unfold PaymentAuthorization.from_header_value
  rw [show (String.mk (b64Encode (utf8Encode (renderObj p.jsonFields)))).data =
    b64Encode (utf8Encode (renderObj p.jsonFields)) from rfl]
  simp only [b64Decode_encode _ (utf8Encode_lt (renderObj p.jsonFields)), utf8Decode_encode]
  exact authorization_from_json_to_json p _ rfl

/-! ### Helper lemmas: decimal comparison agrees with rational order -/

theorem Dec.scaled_mul_pow (d : Dec) (m : Int) (h : m ≤ d.exp) :
    ((d.scaled m : Int) : ℚ) * (10 : ℚ) ^ m = d.toRat := by
  rcases d with ⟨neg, mant, exp⟩
  simp only [Dec.scaled, Dec.toRat] at *
  have hp : ((10 : ℚ) ^ (exp - m).toNat : ℚ) = (10 : ℚ) ^ (exp - m) := by
    rw [← zpow_natCast, Int.toNat_of_nonneg (by omega)]
  have hz : (10:ℚ) ^ (exp - m) * 10 ^ m = 10 ^ exp := by
    rw [← zpow_add₀ (by norm_num : (10:ℚ) ≠ 0), sub_add_cancel]
  cases neg
  · simp only [if_neg (by simp : ¬ (false = true))]
    push_cast
    rw [hp, mul_assoc, mul_assoc ((mant : ℚ)), hz, mul_assoc]
  · simp only [if_pos rfl]
    push_cast
    rw [hp, mul_assoc, mul_assoc ((mant : ℚ)), hz, mul_assoc]

theorem Dec.gtB_iff (a b : Dec) : a.gtB b = true ↔ b.toRat < a.toRat := by
  unfold Dec.gtB
  rw [decide_eq_true_eq]
  have ha : min a.exp b.exp ≤ a.exp := min_le_left _ _
  have hb : min a.exp b.exp ≤ b.exp := min_le_right _ _
  rw [← Dec.scaled_mul_pow a (min a.exp b.exp) ha, ← Dec.scaled_mul_pow b (min a.exp b.exp) hb]
  rw [mul_lt_mul_right (zpow_pos (by norm_num) _), Int.cast_lt]

/-! ### Helper lemmas: verify_payment behavior -/

theorem verify_payment_ok_imp (w : RpcWorld) (authorization : PaymentAuthorization)
    (expected_amount : String) (b : Bool)
    (h : SolanaPaymentProcessor.verify_payment w authorization expected_amount = .ok b) :
    b = true := by
  unfold SolanaPaymentProcessor.verify_payment at h
  simp only [bind, Except.bind] at h
  repeat' split at h
  all_goals simp_all

theorem verify_payment_below (w : RpcWorld) (authorization : PaymentAuthorization)
    (expected_amount : String) (e a : Nat)
    (hsig : w.sigOk authorization.signature = true)
    (he : SolanaPaymentProcessor.parse_amount expected_amount = .ok e)
    (ha : SolanaPaymentProcessor.parse_amount authorization.actual_amount = .ok a)
    (hlt : a < e) :
    ∃ msg, SolanaPaymentProcessor.verify_payment w authorization expected_amount =
      .error (.PaymentVerification msg) := by
  unfold SolanaPaymentProcessor.verify_payment
  rw [if_neg (by simp [hsig])]
  cases hg : w.getTx authorization.signature with
  | error err =>
    simp only [bind, Except.bind, hg, he, ha]
    exact ⟨_, rfl⟩
  | ok tx =>
    simp only [bind, Except.bind, hg, he, ha]
    by_cases herr : tx.err.isSome
    · rw [if_pos herr]
      exact ⟨_, rfl⟩
    · rw [if_neg herr, if_pos hlt]
      exact ⟨_, rfl⟩

theorem verify_payment_ok_inv (w : RpcWorld) (authorization : PaymentAuthorization)
    (expected_amount : String) (b : Bool)
    (h : SolanaPaymentProcessor.verify_payment w authorization expected_amount = .ok b) :
    ∃ tx e a, w.getTx authorization.signature = .ok tx ∧ tx.err = none ∧
      SolanaPaymentProcessor.parse_amount expected_amount = .ok e ∧
      SolanaPaymentProcessor.parse_amount authorization.actual_amount = .ok a ∧
      e ≤ a := by
  unfold SolanaPaymentProcessor.verify_payment at h
  split at h
  · exact absurd h (by simp)
  · simp only [bind, Except.bind] at h
    split at h
    · exact absurd h (by simp)
    · rename_i tx hg
      split at h
      · exact absurd h (by simp)
      · rename_i herr
        split at h
        · exact absurd h (by simp)
        · rename_i e he
          split at h
          · exact absurd h (by simp)
          · rename_i a ha
            split at h
            · exact absurd h (by simp)
            · rename_i hnlt
              exact ⟨tx, e, a, hg, Option.not_isSome_iff_eq_none.mp herr, he, ha, by omega⟩

theorem verify_payment_ignores_transferred (w : RpcWorld) (f : String → Nat)
    (authorization : PaymentAuthorization) (expected_amount : String) :
    SolanaPaymentProcessor.verify_payment (w.setTransferred f) authorization
      expected_amount =
    SolanaPaymentProcessor.verify_payment w authorization expected_amount := by
  unfold SolanaPaymentProcessor.verify_payment RpcWorld.setTransferred
  simp only [bind, Except.bind]
  cases hg : w.getTx authorization.signature <;> simp [hg, Except.map]

theorem verify_payment_passes (w : RpcWorld) (authorization : PaymentAuthorization)
    (expected_amount : String) (tx : ChainTx) (e a : Nat)
    (hsig : w.sigOk authorization.signature = true)
    (hg : w.getTx authorization.signature = .ok tx)
    (herr : tx.err = none)
    (he : SolanaPaymentProcessor.parse_amount expected_amount = .ok e)
    (ha : SolanaPaymentProcessor.parse_amount authorization.actual_amount = .ok a)
    (hge : e ≤ a) :
    SolanaPaymentProcessor.verify_payment w authorization expected_amount = .ok true := by
  unfold SolanaPaymentProcessor.verify_payment
  rw [if_neg (by simp [hsig])]
  simp only [bind, Except.bind, hg, he, ha, herr]
  simp [Option.isSome_none, if_neg (by omega : ¬ a < e)]

/-! ### Helper lemmas: create_payment behavior -/

theorem create_payment_expired (w : RpcWorld) (now : Int) (request : PaymentRequest)
    (payer : Keypair) (h : request.is_expired now = true) :
    SolanaPaymentProcessor.create_payment w now request payer =
      .error (.PaymentExpired ("Payment request expired at " ++
        String.mk (renderTime request.expires_at))) := by
  unfold SolanaPaymentProcessor.create_payment
  rw [if_pos h]

theorem create_payment_ok_inv (w : RpcWorld) (now : Int) (request : PaymentRequest)
    (payer : Keypair) (authorization : PaymentAuthorization)
    (h : SolanaPaymentProcessor.create_payment w now request payer = .ok authorization) :
    authorization.actual_amount = request.max_amount_required ∧
      authorization.payment_id = request.payment_id := by
  unfold SolanaPaymentProcessor.create_payment at h
  simp only [bind, Except.bind] at h
  repeat' split at h
  all_goals first
    | (simp only [reduceCtorEq] at h)
    | (cases h; exact ⟨rfl, rfl⟩)

/-! ### Helper lemmas: auto-pay retry loop behavior -/

theorem autoRequest_ceiling {σ : Type} (options : AutoClientOptions) (w : ClientWorld σ)
    (s s1 : σ) (resp : HttpResponse) (d : PaymentRequest) (md rd : Dec)
    (hsend : w.send s none = (.ok resp, s1))
    (hst : resp.status = 402)
    (hparse : PaymentRequest.from_json resp.body = .ok d)
    (hretries : 0 < options.max_retries)
    (hmax : parseDecimal options.max_payment_amount = some md)
    (hreq : parseDecimal d.max_amount_required = some rd)
    (hgt : md.toRat < rd.toRat) :
    X402AutoClient.request options w s =
      (.error (.PaymentRequired (ceilingMsg rd md)), 0) := by
  have hgtb : rd.gtB md = true := (Dec.gtB_iff rd md).mpr hgt
  unfold X402AutoClient.request
  rw [X402AutoClient.requestLoop]
  simp only [hsend, hst, if_pos rfl, X402Client.parse_payment_request,
    X402AutoClient.check_payment_amount, hparse, hmax, hreq, hgtb]
  rw [dif_neg (by omega : ¬ options.max_retries ≤ 0)]
  simp [hreq, hgtb]

theorem requestLoop_always402 (options : AutoClientOptions) (w : ClientWorld Unit)
    (resp resp2 : HttpResponse) (d : PaymentRequest) (authorization : PaymentAuthorization)
    (hsend : w.send () none = (.ok resp, ()))
    (hst : resp.status = 402)
    (hparse : PaymentRequest.from_json resp.body = .ok d)
    (hcheck : X402AutoClient.check_payment_amount options d = .ok ())
    (hpay : w.createPay () d = (.ok authorization, ()))
    (hsend2 : w.send () (some authorization) = (.ok resp2, ()))
    (hst2 : resp2.status = 402) :
    ∀ k retries pays, options.max_retries - retries = k →
      X402AutoClient.requestLoop options w retries () pays =
        (.error (.PaymentRequired "Maximum retry attempts reached"), pays + k) := by
  have hppr : X402Client.parse_payment_request resp = .ok d := by
    unfold X402Client.parse_payment_request
    rw [hst]
    simp [hparse]
  intro k
  induction k with
  | zero =>
    intro retries pays hk
    rw [X402AutoClient.requestLoop]
    simp only [hsend]
    rw [if_pos hst, dif_pos (by omega : options.max_retries ≤ retries)]
    simp
  | succ k ih =>
    intro retries pays hk
    rw [X402AutoClient.requestLoop]
    simp only [hsend]
    rw [if_pos hst, dif_neg (by omega : ¬ options.max_retries ≤ retries)]
    simp only [hppr, hcheck, hpay, hsend2]
    rw [if_neg (by rw [hst2]; omega : ¬ (200 ≤ resp2.status ∧ resp2.status < 300)),
      if_pos hst2]
    rw [ih (retries + 1) (pays + 1) (by omega)]
    congr 1
    omega

/-! ### Helper lemma: sign of a parsed decimal value -/

theorem Dec.toRat_neg_iff (d : Dec) : d.toRat < 0 ↔ (d.neg = true ∧ d.mant ≠ 0) := by
  rcases d with ⟨neg, mant, exp⟩
  unfold Dec.toRat
  have hp : (0 : ℚ) < (10 : ℚ) ^ exp := zpow_pos (by norm_num) exp
  cases neg
  · simp only [Bool.false_eq_true, false_and, iff_false, not_lt, if_false]
    positivity
  · simp only [eq_self_iff_true, if_true, true_and]
    constructor
    · intro h hm
      rw [hm] at h
      simp at h
    · intro hm
      have hmp : (0 : ℚ) < (mant : ℚ) := by
        exact_mod_cast Nat.pos_of_ne_zero hm
      nlinarith [mul_pos hmp hp]

/-! ### Concrete evaluations of the amount conversion -/

example : SolanaPaymentProcessor.parse_amount "0.10" = .ok 100000 := by decide
example : SolanaPaymentProcessor.parse_amount "1.0" = .ok 1000000 := by decide
example : SolanaPaymentProcessor.parse_amount "0.000001" = .ok 1 := by decide
example : SolanaPaymentProcessor.parse_amount "-1.0" = .ok 0 := by decide
example : SolanaPaymentProcessor.parse_amount "abc" =
    .error (.InvalidPaymentRequest "Invalid amount format: abc") := by decide
example : SolanaPaymentProcessor.parse_amount "2e19" = .ok (2 ^ 64 - 1) := by decide

/-! ### Claim theorems -/

/-- C1: for every payment demand whose `max_amount_required`, parsed as a decimal
number, exceeds the auto-pay client's configured `max_payment_amount` (also
parsed as a decimal number), the auto-pay request loop terminates with a
`PaymentRequired` error naming both amounts, and the processor's payment-creation
step is never invoked for that demand (the returned invocation count is `0`). -/
theorem claim_C1 {σ : Type} (options : AutoClientOptions) (w : ClientWorld σ)
    (s s1 : σ) (resp : HttpResponse) (d : PaymentRequest) (md rd : Dec)
    (hsend : w.send s none = (.ok resp, s1))
    (hst : resp.status = 402)
    (hparse : PaymentRequest.from_json resp.body = .ok d)
    (hretries : 0 < options.max_retries)
    (hmax : parseDecimal options.max_payment_amount = some md)
    (hreq : parseDecimal d.max_amount_required = some rd)
    (hgt : md.toRat < rd.toRat) :
    X402AutoClient.request options w s =
      (.error (.PaymentRequired (ceilingMsg rd md)), 0) :=
  autoRequest_ceiling options w s s1 resp d md rd hsend hst hparse hretries hmax hreq hgt

/-- Witness for C1: a resource demanding "1.00" against the configured ceiling
"0.50" makes the auto-pay loop fail with `PaymentRequired` naming both values,
with zero payment-creation invocations. -/
theorem claim_C1_witness :
    X402AutoClient.request ceilingOptions ceilingWorld () =
      (.error (.PaymentRequired (ceilingMsg ⟨false, 100, -2⟩ ⟨false, 50, -2⟩)), 0) :=
  claim_C1 ceilingOptions ceilingWorld () ()
    ⟨402, String.mk (renderObj (demandAt "1.00" 9999).jsonFields)⟩
    (demandAt "1.00" 9999) ⟨false, 50, -2⟩ ⟨false, 100, -2⟩
    rfl rfl (request_from_json_to_json _ _ rfl) (by decide) (by decide) (by decide)
    ((Dec.gtB_iff ⟨false, 100, -2⟩ ⟨false, 50, -2⟩).mp (by decide))

/-- C2: once the retry count has reached the configured maximum, a 402 response
always produces the terminal error `PaymentRequired("Maximum retry attempts
reached")` with no further payment attempt; and with `max_retries = 3` and a
resource that answers 402 to every request (with a parseable, within-ceiling
demand and an always-succeeding processor), the auto-pay request loop invokes
the payment-creation step exactly 3 times and then fails with that error. -/
theorem claim_C2 :
    (∀ (σ : Type) (options : AutoClientOptions) (w : ClientWorld σ) (s s1 : σ)
      (resp : HttpResponse) (retries pays : Nat),
      w.send s none = (.ok resp, s1) → resp.status = 402 →
      options.max_retries ≤ retries →
      X402AutoClient.requestLoop options w retries s pays =
        (.error (.PaymentRequired "Maximum retry attempts reached"), pays)) ∧
    (∀ (options : AutoClientOptions) (w : ClientWorld Unit) (resp resp2 : HttpResponse)
      (d : PaymentRequest) (authorization : PaymentAuthorization),
      w.send () none = (.ok resp, ()) → resp.status = 402 →
      PaymentRequest.from_json resp.body = .ok d →
      X402AutoClient.check_payment_amount options d = .ok () →
      w.createPay () d = (.ok authorization, ()) →
      w.send () (some authorization) = (.ok resp2, ()) →
      resp2.status = 402 →
      options.max_retries = 3 →
      X402AutoClient.request options w () =
        (.error (.PaymentRequired "Maximum retry attempts reached"), 3)) := by
  constructor
  · intro σ options w s s1 resp retries pays hsend hst hle
    rw [X402AutoClient.requestLoop]
    simp only [hsend]
    rw [if_pos hst, dif_pos hle]
  · intro options w resp resp2 d authorization hsend hst hparse hcheck hpay hsend2 hst2 hmr
    have h := requestLoop_always402 options w resp resp2 d authorization hsend hst hparse
      hcheck hpay hsend2 hst2 options.max_retries 0 0 (by omega)
    unfold X402AutoClient.request
    rw [h, hmr]

/-- Witness for C2: with the default options (`max_retries = 3`) against a
resource that always answers 402 with a within-ceiling "0.10" demand, the loop
makes exactly 3 payment attempts and fails with the terminal error. -/
theorem claim_C2_witness :
    X402AutoClient.request AutoClientOptions.default always402World () =
      (.error (.PaymentRequired "Maximum retry attempts reached"), 3) :=
  claim_C2.2 AutoClientOptions.default always402World
    ⟨402, String.mk (renderObj (demandAt "0.10" 9999).jsonFields)⟩
    ⟨402, String.mk (renderObj (demandAt "0.10" 9999).jsonFields)⟩
    (demandAt "0.10" 9999) (proofAmount "0.10")
    rfl rfl (request_from_json_to_json _ _ rfl) (by decide) rfl rfl rfl rfl

/-- C3: `verify_payment` fails with a `PaymentVerification` error whenever the
proof's amount, converted to minor units, is strictly less than the expected
amount so converted (given a well-formed signature), and it returns `true` only
when the referenced transaction exists, succeeded on-ledger, and the (proof's)
amount is greater than or equal to the expected amount. -/
theorem claim_C3 :
    (∀ (w : RpcWorld) (authorization : PaymentAuthorization) (expected_amount : String)
      (e a : Nat),
      w.sigOk authorization.signature = true →
      SolanaPaymentProcessor.parse_amount expected_amount = .ok e →
      SolanaPaymentProcessor.parse_amount authorization.actual_amount = .ok a →
      a < e →
      ∃ msg, SolanaPaymentProcessor.verify_payment w authorization expected_amount =
        .error (.PaymentVerification msg)) ∧
    (∀ (w : RpcWorld) (authorization : PaymentAuthorization) (expected_amount : String)
      (b : Bool),
      SolanaPaymentProcessor.verify_payment w authorization expected_amount = .ok b →
      b = true ∧ ∃ tx e a, w.getTx authorization.signature = .ok tx ∧ tx.err = none ∧
        SolanaPaymentProcessor.parse_amount expected_amount = .ok e ∧
        SolanaPaymentProcessor.parse_amount authorization.actual_amount = .ok a ∧
        e ≤ a) := by
  constructor
  · exact verify_payment_below
  · intro w authorization expected_amount b h
    exact ⟨verify_payment_ok_imp w authorization expected_amount b h,
      verify_payment_ok_inv w authorization expected_amount b h⟩

/-- Witness for C3: a proof claiming "0.05" checked against expected "0.10"
yields a `PaymentVerification` failure, never success. -/
theorem claim_C3_witness :
    ∃ msg, SolanaPaymentProcessor.verify_payment testWorld (proofAmount "0.05") "0.10" =
      .error (.PaymentVerification msg) :=
  claim_C3.1 testWorld (proofAmount "0.05") "0.10" 100000 50000 rfl (by decide) (by decide)
    (by decide)

/-- C4: amount conversion from decimal display strings to integer minor units
uses a fixed scale of 6 fractional digits — `"0.10" ↦ 100000`, `"1.0" ↦ 1000000`,
`"0.000001" ↦ 1` — and every input string that does not parse as a number makes
`parse_amount` fail with an `InvalidPaymentRequest` error. -/
theorem claim_C4 :
    SolanaPaymentProcessor.parse_amount "0.10" = .ok 100000 ∧
    SolanaPaymentProcessor.parse_amount "1.0" = .ok 1000000 ∧
    SolanaPaymentProcessor.parse_amount "0.000001" = .ok 1 ∧
    ∀ s : String, parseDecimal s = none →
      SolanaPaymentProcessor.parse_amount s =
        .error (.InvalidPaymentRequest ("Invalid amount format: " ++ s)) := by
  refine ⟨by decide, by decide, by decide, ?_⟩
  intro s h
  unfold SolanaPaymentProcessor.parse_amount
  rw [h]

/-- Witness for C4: the non-numeric input "abc" is rejected with
`InvalidPaymentRequest`. -/
theorem claim_C4_witness :
    parseDecimal "abc" = none ∧
    SolanaPaymentProcessor.parse_amount "abc" =
      .error (.InvalidPaymentRequest ("Invalid amount format: " ++ "abc")) :=
  ⟨by decide, claim_C4.2.2.2 "abc" (by decide)⟩

/-- C5: for every payment demand D, parsing the JSON serialization of D yields
exactly D, and for every payment proof P, decoding the base64 header encoding of
P yields exactly P: serialization and the header codec are lossless round trips. -/
theorem claim_C5 :
    (∀ r : PaymentRequest, ∃ s, r.to_json = .ok s ∧ PaymentRequest.from_json s = .ok r) ∧
    (∀ p : PaymentAuthorization, ∃ e, p.to_header_value = .ok e ∧
      PaymentAuthorization.from_header_value e = .ok p) :=
  ⟨fun r => ⟨_, rfl, request_from_json_to_json r _ rfl⟩,
   fun p => ⟨_, rfl, authorization_from_header_to_header p _ rfl⟩⟩

/-- C6: `create_payment`, whenever it returns a proof, returns one whose
`actual_amount` equals the demand's `max_amount_required` exactly and whose
`payment_id` equals the demand's `payment_id`; and given a demand whose expiry
instant is in the past it fails with a `PaymentExpired` error whose value is the
same for every ledger oracle — the ledger is never consulted. -/
theorem claim_C6 :
    (∀ (w : RpcWorld) (now : Int) (request : PaymentRequest) (payer : Keypair)
      (authorization : PaymentAuthorization),
      SolanaPaymentProcessor.create_payment w now request payer = .ok authorization →
      authorization.actual_amount = request.max_amount_required ∧
        authorization.payment_id = request.payment_id) ∧
    (∀ (w : RpcWorld) (now : Int) (request : PaymentRequest) (payer : Keypair),
      request.is_expired now = true →
      SolanaPaymentProcessor.create_payment w now request payer =
        .error (.PaymentExpired ("Payment request expired at " ++
          String.mk (renderTime request.expires_at)))) :=
  ⟨create_payment_ok_inv, fun w now request payer h =>
    create_payment_expired w now request payer h⟩

/-- Witness for C6: in `testWorld`, paying the unexpired "0.10" demand yields a
proof with `actual_amount = "0.10"` and the demand's `payment_id`; the same
demand already expired fails with `PaymentExpired`. -/
theorem claim_C6_witness :
    (expectedAuth.actual_amount = (demandAt "0.10" 9999).max_amount_required ∧
      expectedAuth.payment_id = (demandAt "0.10" 9999).payment_id) ∧
    SolanaPaymentProcessor.create_payment testWorld 0 (demandAt "0.10" (-1)) ⟨"payerpk"⟩ =
      .error (.PaymentExpired ("Payment request expired at " ++
        String.mk (renderTime (demandAt "0.10" (-1)).expires_at))) :=
  ⟨claim_C6.1 testWorld 0 (demandAt "0.10" 9999) ⟨"payerpk"⟩ expectedAuth (by decide),
   claim_C6.2 testWorld 0 (demandAt "0.10" (-1)) ⟨"payerpk"⟩ (by decide)⟩

/-- C7 (counterexample to the claim as stated): the error kinds the parse and
header-decode operations produce are `InvalidPaymentRequest` and
`Serialization`; `X402Error` has no `MalformedDemand` or `MalformedHeader`
kinds, so a schema mismatch concretely yields `InvalidPaymentRequest` (code
`INVALID_PAYMENT_REQUEST`) and invalid base64 yields `Serialization` (code
`SERIALIZATION_ERROR`). -/
theorem claim_C7_counterexample :
    PaymentRequest.from_json "{}" =
      .error (.InvalidPaymentRequest "Failed to parse payment request") ∧
    PaymentRequest.from_base64 "!" = .error (.Serialization "Base64 decode error") ∧
    (X402Error.InvalidPaymentRequest "Failed to parse payment request").code =
      "INVALID_PAYMENT_REQUEST" ∧
    (X402Error.Serialization "Base64 decode error").code = "SERIALIZATION_ERROR" := by
  refine ⟨by decide, by decide, by decide, by decide⟩

/-- C7 (amended): parsing a demand from JSON fails with an
`InvalidPaymentRequest` error on schema mismatch (a proof with
`InvalidPaymentAuthorization`), and decoding a demand or proof from its base64
header form fails with a `Serialization` error on invalid base64 and with
`InvalidPaymentRequest` (demand) / `InvalidPaymentAuthorization` (proof) on
invalid UTF-8 after base64 decoding. -/
theorem claim_C7 :
    (∀ s : String, (parseObj s.data).bind PaymentRequest.ofFields = none →
      PaymentRequest.from_json s =
        .error (.InvalidPaymentRequest "Failed to parse payment request")) ∧
    (∀ s : String, (parseObj s.data).bind PaymentAuthorization.ofFields = none →
      PaymentAuthorization.from_json s =
        .error (.InvalidPaymentAuthorization "Failed to parse payment authorization")) ∧
    (∀ s : String, b64Decode s.data = none →
      PaymentRequest.from_base64 s = .error (.Serialization "Base64 decode error")) ∧
    (∀ s : String, b64Decode s.data = none →
      PaymentAuthorization.from_header_value s =
        .error (.Serialization "Base64 decode error")) ∧
    (∀ (s : String) (bytes : List Nat), b64Decode s.data = some bytes →
      utf8Decode bytes = none →
      PaymentRequest.from_base64 s =
        .error (.InvalidPaymentRequest "Invalid UTF-8 in base64 data")) ∧
    (∀ (s : String) (bytes : List Nat), b64Decode s.data = some bytes →
      utf8Decode bytes = none →
      PaymentAuthorization.from_header_value s =
        .error (.InvalidPaymentAuthorization "Invalid UTF-8 in header")) := by
  refine ⟨?_, ?_, ?_, ?_, ?_, ?_⟩
  · intro s h
    unfold PaymentRequest.from_json
    rw [h]
  · intro s h
    unfold PaymentAuthorization.from_json
    rw [h]
  · intro s h
    unfold PaymentRequest.from_base64
    rw [h]
  · intro s h
    unfold PaymentAuthorization.from_header_value
    rw [h]
  · intro s bytes hb hu
    unfold PaymentRequest.from_base64
    simp only [hb, hu]
  · intro s bytes hb hu
    unfold PaymentAuthorization.from_header_value
    simp only [hb, hu]

/-- Witness for C7: concrete malformed inputs — an empty JSON object (schema
mismatch), a non-base64 string, and valid base64 of the non-UTF-8 byte 0xFF. -/
theorem claim_C7_witness :
    PaymentRequest.from_json "{}" =
      .error (.InvalidPaymentRequest "Failed to parse payment request") ∧
    PaymentAuthorization.from_json "{}" =
      .error (.InvalidPaymentAuthorization "Failed to parse payment authorization") ∧
    PaymentRequest.from_base64 "!" = .error (.Serialization "Base64 decode error") ∧
    PaymentAuthorization.from_header_value "!" =
      .error (.Serialization "Base64 decode error") ∧
    PaymentRequest.from_base64 "/w==" =
      .error (.InvalidPaymentRequest "Invalid UTF-8 in base64 data") ∧
    PaymentAuthorization.from_header_value "/w==" =
      .error (.InvalidPaymentAuthorization "Invalid UTF-8 in header") :=
  ⟨claim_C7.1 "{}" (by decide), claim_C7.2.1 "{}" (by decide),
   claim_C7.2.2.1 "!" (by decide), claim_C7.2.2.2.1 "!" (by decide),
   claim_C7.2.2.2.2.1 "/w==" [255] (by decide) (by decide),
   claim_C7.2.2.2.2.2 "/w==" [255] (by decide) (by decide)⟩

/-- C8: `verify_payment` performs its amount comparison against the proof's own
self-reported `actual_amount` field, never against the amount recorded in the
on-ledger transaction it looks up: its result is unchanged when every looked-up
transaction's transferred amount is replaced arbitrarily, and for any existing
successful transaction a proof whose claimed `actual_amount` parses to at least
the expected amount passes regardless of what the transaction transferred. -/
theorem claim_C8 :
    (∀ (w : RpcWorld) (f : String → Nat) (authorization : PaymentAuthorization)
      (expected_amount : String),
      SolanaPaymentProcessor.verify_payment (w.setTransferred f) authorization
        expected_amount =
      SolanaPaymentProcessor.verify_payment w authorization expected_amount) ∧
    (∀ (w : RpcWorld) (authorization : PaymentAuthorization) (expected_amount : String)
      (tx : ChainTx) (e a : Nat),
      w.sigOk authorization.signature = true →
      w.getTx authorization.signature = .ok tx →
      tx.err = none →
      SolanaPaymentProcessor.parse_amount expected_amount = .ok e →
      SolanaPaymentProcessor.parse_amount authorization.actual_amount = .ok a →
      e ≤ a →
      SolanaPaymentProcessor.verify_payment w authorization expected_amount = .ok true) :=
  ⟨verify_payment_ignores_transferred, verify_payment_passes⟩

/-- Witness for C8: in `testWorld` every transaction transferred `0` on-ledger,
yet a proof claiming "0.10" against expected "0.10" verifies successfully. -/
theorem claim_C8_witness :
    SolanaPaymentProcessor.verify_payment testWorld (proofAmount "0.10") "0.10" =
      .ok true :=
  claim_C8.2 testWorld (proofAmount "0.10") "0.10" ⟨none, 0⟩ 100000 100000 rfl rfl rfl
    (by decide) (by decide) (by decide)

/-- C9: whenever `verify_payment` returns without an error, the returned boolean
is `true`; it never returns `Ok(false)`, so every rejection is signalled through
a typed error. -/
theorem claim_C9 :
    ∀ (w : RpcWorld) (authorization : PaymentAuthorization) (expected_amount : String)
      (b : Bool),
      SolanaPaymentProcessor.verify_payment w authorization expected_amount = .ok b →
      b = true :=
  verify_payment_ok_imp

/-- Witness for C9: a concrete successful verification returns exactly
`Ok(true)`. -/
theorem claim_C9_witness :
    SolanaPaymentProcessor.verify_payment testWorld (proofAmount "0.10") "0.10" =
      .ok true ∧ true = true :=
  ⟨by decide, claim_C9 testWorld (proofAmount "0.10") "0.10" true (by decide)⟩

/-- C10: every amount string that parses as a negative number is not rejected by
`parse_amount`: the negative value's cast to `u64` saturates at zero, so the
result is `Ok(0)` rather than an `InvalidPaymentRequest` error. -/
theorem claim_C10 :
    ∀ (s : String) (d : Dec), parseDecimal s = some d → d.toRat < 0 →
      SolanaPaymentProcessor.parse_amount s = .ok 0 := by
  intro s d hp hneg
  obtain ⟨hn, hm⟩ := (Dec.toRat_neg_iff d).mp hneg
  unfold SolanaPaymentProcessor.parse_amount
  rw [hp]
  simp [decAsU64, hn, hm]

/-- Witness for C10: `"-1.0"` parses to the negative value `-10 * 10 ^ (-1)` and
`parse_amount` returns `Ok(0)`. -/
theorem claim_C10_witness :
    parseDecimal "-1.0" = some ⟨true, 10, -1⟩ ∧
    SolanaPaymentProcessor.parse_amount "-1.0" = .ok 0 :=
  ⟨by decide, claim_C10 "-1.0" ⟨true, 10, -1⟩ (by decide)
    ((Dec.toRat_neg_iff ⟨true, 10, -1⟩).mpr (by decide))⟩
